import Mathlib

set_option linter.unusedVariables false

/-!
Shallow embedding of the camera/viewport transform engine of the
`rust-fractal-viewer` repository (src/renderer/complex.rs,
src/renderer/camera.rs, src/renderer/renderer.rs), with `f32` fields
modelled as exact rationals and GPU handles elided.  The state-mutating
Rust methods become pure state-passing functions; the GPU upload in
`Camera::update` is modelled by returning a Boolean that records whether
the buffer write was issued.
-/

namespace FractalViewer

/-- The complex-number value type of src/renderer/complex.rs
(`struct Complex { re: f32, im: f32 }`). -/
@[ext]
structure Complex where
  re : ℚ
  im : ℚ
  deriving DecidableEq, Repr

namespace Complex

/-- `Complex::new` from complex.rs. -/
def new (re im : ℚ) : Complex := ⟨re, im⟩

/-- `impl Add for Complex` from complex.rs. -/
def add (a b : Complex) : Complex := ⟨a.re + b.re, a.im + b.im⟩

/-- `impl Sub for Complex` from complex.rs. -/
def sub (a b : Complex) : Complex := ⟨a.re - b.re, a.im - b.im⟩

/-- `impl Mul for Complex` from complex.rs (standard complex product). -/
def mul (a b : Complex) : Complex :=
  ⟨a.re * b.re - a.im * b.im, a.re * b.im + a.im * b.re⟩

instance : Add Complex := ⟨add⟩
instance : Sub Complex := ⟨sub⟩
instance : Mul Complex := ⟨mul⟩

theorem add_def (a b : Complex) : a + b = ⟨a.re + b.re, a.im + b.im⟩ := rfl

theorem sub_def (a b : Complex) : a - b = ⟨a.re - b.re, a.im - b.im⟩ := rfl

end Complex

/-- `CameraState` from camera.rs: the GPU-uploadable viewport state.
`needs_redraw` is the `u32` dirty flag. -/
structure CameraState where
  width : ℚ
  height : ℚ
  origin : Complex
  scale : ℚ
  zoom : ℚ
  min : Complex
  max : Complex
  needs_redraw : ℕ
  deriving DecidableEq, Repr

namespace CameraState

/-- `CameraState::calculate_limits` from camera.rs, lines 156-177. -/
def calculate_limits (width height scale : ℚ) (origin : Complex) (zoom : ℚ) :
    Complex × Complex :=
  let ratio_x : ℚ := if width > height then 1 else height / width
  let ratio_y : ℚ := if width > height then width / height else 1
  let min_x := -scale / 2 / ratio_x
  let max_x := scale / 2 / ratio_x
  let min_y := -scale / 2 / ratio_y
  let max_y := scale / 2 / ratio_y
  let mn := Complex.new (min_x / zoom + origin.re) (min_y / zoom + origin.im)
  let mx := Complex.new (max_x / zoom + origin.re) (max_y / zoom + origin.im)
  (mn, mx)

/-- `CameraState::new` from camera.rs (zoom starts at 1.0, flag set). -/
def new (width height scale : ℚ) (origin : Complex) : CameraState :=
  let zoom : ℚ := 1
  let lim := calculate_limits width height scale origin zoom
  { width := width, height := height, origin := origin, scale := scale,
    zoom := zoom, min := lim.1, max := lim.2, needs_redraw := 1 }

/-- `CameraState::redraw` from camera.rs: sets the dirty flag. -/
def redraw (s : CameraState) : CameraState := { s with needs_redraw := 1 }

/-- `CameraState::update_limits` from camera.rs: recomputes `min`/`max`
from the other fields. -/
def update_limits (s : CameraState) : CameraState :=
  let lim := calculate_limits s.width s.height s.scale s.origin s.zoom
  { s with min := lim.1, max := lim.2 }

/-- `CameraState::resize` from camera.rs. -/
def resize (s : CameraState) (width height : ℚ) : CameraState :=
  (({ s with width := width, height := height }).update_limits).redraw

/-- `CameraState::set_origin` from camera.rs. -/
def set_origin (s : CameraState) (origin : Complex) : CameraState :=
  (({ s with origin := origin }).update_limits).redraw

/-- `CameraState::move_origin` from camera.rs, lines 97-103. -/
def move_origin (s : CameraState) (pixel_x pixel_y : ℚ) : CameraState :=
  s.set_origin (Complex.new
    (s.origin.re + (s.min.re - s.max.re) / s.width * pixel_x)
    (s.origin.im + (s.min.im - s.max.im) / s.height * pixel_y))

/-- `CameraState::set_zoom` from camera.rs: stores the argument directly. -/
def set_zoom (s : CameraState) (zoom : ℚ) : CameraState :=
  (({ s with zoom := zoom }).update_limits).redraw

/-- `CameraState::zoom_at_point` from camera.rs, lines 117-136: doubles
the zoom for a positive direction, halves it for a negative one; the
pixel arguments are currently unused (center-anchored zoom). -/
def zoom_at_point (s : CameraState) (x y zoom_by : ℚ) : CameraState :=
  let s' :=
    if zoom_by > 0 then { s with zoom := s.zoom * 2 }
    else if zoom_by < 0 then { s with zoom := s.zoom / 2 }
    else s
  (s'.update_limits).redraw

/-- `CameraState::zoom_rect` from camera.rs: unimplemented stub, only
marks the state dirty. -/
def zoom_rect (s : CameraState) (x y w h : ℚ) : CameraState := s.redraw

/-- The central derived-field invariant: `min`/`max` agree with
`calculate_limits` applied to the other fields.  Established by `new`
and re-established by every mutator through `update_limits`. -/
def Wf (s : CameraState) : Prop :=
  (s.min, s.max) =
    calculate_limits s.width s.height s.scale s.origin s.zoom

instance (s : CameraState) : Decidable s.Wf := by
  unfold Wf; infer_instance

end CameraState

/-- `Camera` from camera.rs: viewport state plus the input-controller
drag state (`cursor_pos`, `mouse_left_down`, `grab_pos`, `grab_point`).
The wgpu buffer/layout/bind-group handles are elided. -/
structure Camera where
  state : CameraState
  cursor_pos : ℚ × ℚ
  mouse_left_down : Bool
  grab_pos : ℚ × ℚ
  grab_point : Complex
  deriving DecidableEq, Repr

/-- The window events `Camera::input` inspects, from camera.rs lines
232-271: line-delta scroll, cursor motion, left-button press/release,
and everything it ignores. -/
inductive WinEvent where
  | mouseWheelLine (horizontal vertical : ℚ)
  | mouseWheelOther
  | cursorMoved (x y : ℚ)
  | mouseLeftReleased
  | mouseLeftPressed
  | otherEvent
  deriving DecidableEq, Repr

namespace Camera

/-- `Camera::new` from camera.rs (the GPU allocations are elided):
cursor and grab fields zeroed, button up. -/
def new (width height scale : ℚ) (origin : Complex) : Camera :=
  { state := CameraState.new width height scale origin
    cursor_pos := (0, 0)
    mouse_left_down := false
    grab_pos := (0, 0)
    grab_point := Complex.new 0 0 }

/-- `Camera::pixel_to_point` from camera.rs, lines 336-343. -/
def pixel_to_point (c : Camera) (x y : ℚ) : Complex :=
  let w := c.state.max.re - c.state.min.re
  let h := c.state.min.im - c.state.max.im
  { re := c.state.min.re + x * w / c.state.width
    im := c.state.min.im - y * h / c.state.height }

/-- `Camera::input` from camera.rs, lines 232-271: returns the updated
camera and whether the event was consumed. -/
def input (c : Camera) (e : WinEvent) : Camera × Bool :=
  match e with
  | .mouseWheelLine _ vertical =>
      ({ c with state :=
          c.state.zoom_at_point (c.state.width / 2) (c.state.height / 2) vertical },
       true)
  | .mouseWheelOther => (c, false)
  | .cursorMoved x y => ({ c with cursor_pos := (x, y) }, true)
  | .mouseLeftReleased => ({ c with mouse_left_down := false }, true)
  | .mouseLeftPressed =>
      if !c.mouse_left_down then
        let grab_pos := c.cursor_pos
        let grab_point := c.pixel_to_point grab_pos.1 grab_pos.2
        ({ c with mouse_left_down := true, grab_pos := grab_pos,
                  grab_point := grab_point }, true)
      else (c, true)
  | .otherEvent => (c, false)

/-- `Camera::update` from camera.rs, lines 273-285: the per-tick drag
anchor adjustment, then the conditional GPU upload.  The returned
Boolean records whether `queue.write_buffer` was issued. -/
def update (c : Camera) : Camera × Bool :=
  let c' :=
    if c.mouse_left_down then
      let grab_complex := c.pixel_to_point c.cursor_pos.1 c.cursor_pos.2
      { c with state :=
          c.state.set_origin (c.grab_point + c.state.origin - grab_complex) }
    else c
  if c'.state.needs_redraw ≠ 0 then
    ({ c' with state := { c'.state with needs_redraw := 0 } }, true)
  else (c', false)

/-- `Camera::resize` from camera.rs, lines 287-289 (the `u32 as f32`
casts become `ℕ → ℚ` coercions). -/
def resize (c : Camera) (width height : ℕ) : Camera :=
  { c with state := c.state.resize (width : ℚ) (height : ℚ) }

end Camera

/-- `Renderer::DEFAULT_CAMERA_SCALE` from renderer.rs: 3.0, the only
scale value the program ever passes to the camera (main.rs calls
`Renderer::new(&window, None, None)`). -/
def DEFAULT_CAMERA_SCALE : ℚ := 3

/-- `Renderer::DEFAULT_CAMERA_ORIGIN` from renderer.rs: (-0.5, 0). -/
def DEFAULT_CAMERA_ORIGIN : Complex := ⟨-1 / 2, 0⟩

namespace Renderer

/-- `Renderer::resize` from renderer.rs, lines 131-143, restricted to
the camera-visible effect: clamps zero dimensions up to 1, then
forwards to `Camera::resize` (surface reconfiguration elided). -/
def resize (c : Camera) (width height : ℕ) : Camera :=
  let width := if width ≤ 0 then 1 else width
  let height := if height ≤ 0 then 1 else height
  c.resize width height

end Renderer

/-- One drag tick as the spec's pan-anchor claim describes it: a
cursor-move event followed by an `update` call (upload flag dropped). -/
def moveTick (c : Camera) (p : ℚ × ℚ) : Camera :=
  ((c.input (WinEvent.cursorMoved p.1 p.2)).1.update).1

/-! ## Helper lemmas -/

/-- The zoom factor stored by `zoom_at_point`, by direction sign. -/
theorem zoom_at_point_zoom (s : CameraState) (x y d : ℚ) :
    (s.zoom_at_point x y d).zoom =
      if d > 0 then s.zoom * 2 else if d < 0 then s.zoom / 2 else s.zoom := by
  unfold CameraState.zoom_at_point CameraState.update_limits CameraState.redraw
  split
  · rfl
  · split <;> rfl

/-! ## Claims -/

/-- C6: zoom round-trip — a positive-direction `zoom_at_point` followed by a
negative-direction one (or the two in the opposite order), with any pixel
arguments, restores the original zoom exactly. -/
theorem C6_zoom_round_trip (s : CameraState) (x1 y1 d1 x2 y2 d2 : ℚ)
    (h1 : 0 < d1) (h2 : d2 < 0) :
    ((s.zoom_at_point x1 y1 d1).zoom_at_point x2 y2 d2).zoom = s.zoom ∧
    ((s.zoom_at_point x2 y2 d2).zoom_at_point x1 y1 d1).zoom = s.zoom := by
  have hn1 : ¬ (d2 > 0) := by linarith
  rw [zoom_at_point_zoom, zoom_at_point_zoom, zoom_at_point_zoom,
    zoom_at_point_zoom, if_pos h1, if_neg hn1, if_pos h2, if_neg hn1,
    if_pos h2, if_pos h1]
  constructor <;> ring

/-- Witness for C6 at a concrete state and directions. -/
theorem C6_zoom_round_trip_witness :
    (0:ℚ) < 1 ∧ (-1:ℚ) < 0 ∧
    (((CameraState.new 100 100 4 (Complex.new 0 0)).zoom_at_point 5 6 1).zoom_at_point
        7 8 (-1)).zoom = (CameraState.new 100 100 4 (Complex.new 0 0)).zoom :=
  ⟨by decide, by decide,
    (C6_zoom_round_trip (CameraState.new 100 100 4 (Complex.new 0 0))
      5 6 1 7 8 (-1) (by decide) (by decide)).1⟩

/-- C5: non-degenerate rectangle — for every width, height, zoom > 0
(with the base scale the program actually uses, `DEFAULT_CAMERA_SCALE`),
`calculate_limits` returns `min.re < max.re` and `min.im < max.im`. -/
theorem C5_nondegenerate_rect (w h z : ℚ) (o : Complex)
    (hw : 0 < w) (hh : 0 < h) (hz : 0 < z) :
    (CameraState.calculate_limits w h DEFAULT_CAMERA_SCALE o z).1.re <
      (CameraState.calculate_limits w h DEFAULT_CAMERA_SCALE o z).2.re ∧
    (CameraState.calculate_limits w h DEFAULT_CAMERA_SCALE o z).1.im <
      (CameraState.calculate_limits w h DEFAULT_CAMERA_SCALE o z).2.im := by
  have hrx : (0:ℚ) < (if w > h then 1 else h / w) := by
    split
    · norm_num
    · exact div_pos hh hw
  have hry : (0:ℚ) < (if w > h then w / h else 1) := by
    split
    · exact div_pos hw hh
    · norm_num
  simp only [CameraState.calculate_limits, Complex.new, DEFAULT_CAMERA_SCALE]
  constructor
  · have hp : (0:ℚ) < 3 / 2 / (if w > h then 1 else h / w) / z :=
      div_pos (div_pos (by norm_num) hrx) hz
    have hneg : (-3:ℚ) / 2 / (if w > h then 1 else h / w) / z =
        -(3 / 2 / (if w > h then 1 else h / w) / z) := by ring
    linarith
  · have hp : (0:ℚ) < 3 / 2 / (if w > h then w / h else 1) / z :=
      div_pos (div_pos (by norm_num) hry) hz
    have hneg : (-3:ℚ) / 2 / (if w > h then w / h else 1) / z =
        -(3 / 2 / (if w > h then w / h else 1) / z) := by ring
    linarith

/-- Witness for C5 at width 800, height 600, zoom 1. -/
theorem C5_nondegenerate_rect_witness :
    (0:ℚ) < 800 ∧ (0:ℚ) < 600 ∧ (0:ℚ) < 1 ∧
    (CameraState.calculate_limits 800 600 DEFAULT_CAMERA_SCALE
        DEFAULT_CAMERA_ORIGIN 1).1.re <
      (CameraState.calculate_limits 800 600 DEFAULT_CAMERA_SCALE
        DEFAULT_CAMERA_ORIGIN 1).2.re :=
  ⟨by decide, by decide, by decide,
    (C5_nondegenerate_rect 800 600 1 DEFAULT_CAMERA_ORIGIN
      (by decide) (by decide) (by decide)).1⟩

/-- C9 counterexample: `set_zoom` stores its argument unclamped, so the
public operation `set_zoom (-1)` yields a state whose zoom is not
strictly positive, refuting positivity "for every argument value". -/
theorem C9_counterexample :
    ¬ (0 < ((CameraState.new 100 100 4 (Complex.new 0 0)).set_zoom (-1)).zoom) := by
  decide

/-- C9 amended: zoom is 1 after construction and stays strictly positive
under `resize`, `set_origin`, `move_origin`, `zoom_at_point` and
`zoom_rect` for every argument value; `set_zoom` stores its argument
unchanged, so positivity survives it exactly when the argument is
positive. -/
theorem C9_zoom_positive (st : CameraState) (hz : 0 < st.zoom)
    (w h s z x y d dx dy : ℚ) (o : Complex) :
    (CameraState.new w h s o).zoom = 1 ∧
    0 < (st.resize w h).zoom ∧
    0 < (st.set_origin o).zoom ∧
    0 < (st.move_origin dx dy).zoom ∧
    0 < (st.zoom_at_point x y d).zoom ∧
    0 < (st.zoom_rect x y w h).zoom ∧
    (st.set_zoom z).zoom = z := by
  refine ⟨rfl, hz, hz, hz, ?_, hz, rfl⟩
  rw [zoom_at_point_zoom]
  split
  · linarith
  · split
    · positivity
    · exact hz

/-- Witness for C9's amended claim at a concrete state. -/
theorem C9_zoom_positive_witness :
    0 < (CameraState.new 100 100 4 (Complex.new 0 0)).zoom ∧
    0 < ((CameraState.new 100 100 4 (Complex.new 0 0)).zoom_at_point 1 1 (-1)).zoom :=
  ⟨by decide,
    (C9_zoom_positive (CameraState.new 100 100 4 (Complex.new 0 0)) (by decide)
      1 1 1 1 1 1 (-1) 1 1 (Complex.new 0 0)).2.2.2.2.1⟩

/-- C10: a left-button press while the button is already down leaves
`grab_pos` and `grab_point` unchanged and is still reported handled. -/
theorem C10_duplicate_press (c : Camera) (hdown : c.mouse_left_down = true) :
    (c.input WinEvent.mouseLeftPressed).1.grab_pos = c.grab_pos ∧
    (c.input WinEvent.mouseLeftPressed).1.grab_point = c.grab_point ∧
    (c.input WinEvent.mouseLeftPressed).2 = true := by
  simp [Camera.input, hdown]

/-- Witness for C10 on a dragging camera. -/
theorem C10_duplicate_press_witness :
    ({ Camera.new 100 100 4 (Complex.new 0 0) with
        mouse_left_down := true } : Camera).mouse_left_down = true ∧
    (({ Camera.new 100 100 4 (Complex.new 0 0) with
        mouse_left_down := true } : Camera).input WinEvent.mouseLeftPressed).2 = true :=
  ⟨rfl,
    (C10_duplicate_press
      { Camera.new 100 100 4 (Complex.new 0 0) with mouse_left_down := true }
      rfl).2.2⟩

/-- C1 counterexample: at width 1, height 2 (so width ≤ height), scale 4,
zoom 1, the claim requires the re-span (the shorter screen dimension) to be
`base_scale/zoom = 4`, but `calculate_limits` gives span 2: the code puts
`base_scale/zoom` on the longer dimension, not the shorter. -/
theorem C1_counterexample :
    (0:ℚ) < 1 ∧ (0:ℚ) < 2 ∧ (1:ℚ) ≤ 2 ∧
    (CameraState.calculate_limits 1 2 4 (Complex.new 0 0) 1).2.re -
      (CameraState.calculate_limits 1 2 4 (Complex.new 0 0) 1).1.re ≠ 4 / 1 := by
  norm_num [CameraState.calculate_limits, Complex.new]

/-- C1 amended: for all width, height, zoom > 0, the span of the LONGER
screen dimension equals `base_scale/zoom`, and the shorter dimension's
span equals `base_scale/zoom * (short/long)`. -/
theorem C1_aspect_ratio (w h s z : ℚ) (o : Complex)
    (hw : 0 < w) (hh : 0 < h) (hz : 0 < z) :
    (w ≤ h →
      (CameraState.calculate_limits w h s o z).2.im -
        (CameraState.calculate_limits w h s o z).1.im = s / z ∧
      (CameraState.calculate_limits w h s o z).2.re -
        (CameraState.calculate_limits w h s o z).1.re = s / z * (w / h)) ∧
    (h < w →
      (CameraState.calculate_limits w h s o z).2.re -
        (CameraState.calculate_limits w h s o z).1.re = s / z ∧
      (CameraState.calculate_limits w h s o z).2.im -
        (CameraState.calculate_limits w h s o z).1.im = s / z * (h / w)) := by
  constructor
  · intro hwh
    have hnot : ¬ (w > h) := not_lt.mpr hwh
    simp only [CameraState.calculate_limits, Complex.new, if_neg hnot]
    constructor
    · field_simp
      ring
    · field_simp
      ring
  · intro hhw
    have hgt : w > h := hhw
    simp only [CameraState.calculate_limits, Complex.new, if_pos hgt]
    constructor
    · field_simp
      ring
    · field_simp
      ring

/-- Witness for C1's amended claim at width 1, height 2, scale 4, zoom 1. -/
theorem C1_aspect_ratio_witness :
    (0:ℚ) < 1 ∧ (0:ℚ) < 2 ∧ (1:ℚ) ≤ 2 ∧
    ((CameraState.calculate_limits 1 2 4 (Complex.new 0 0) 1).2.im -
      (CameraState.calculate_limits 1 2 4 (Complex.new 0 0) 1).1.im = 4 / 1) :=
  ⟨by decide, by decide, by decide,
    ((C1_aspect_ratio 1 2 4 1 (Complex.new 0 0)
      (by decide) (by decide) (by decide)).1 (by decide)).1⟩

/-- C3: the concrete pan/zoom scenario — from width 100, height 100,
scale 4, origin (0,0), zoom 1 the limits are (-2,-2)/(2,2); after a
positive-direction `zoom_at_point` the zoom is 2 and the limits are
(-1,-1)/(1,1); after `move_origin 50 0` the origin is (-1,0); and
`move_origin`'s general formula adds `(min.re - max.re)/width * dx` to
`origin.re` and analogously for `im` using the height. -/
theorem C3_concrete_scenario (x y d : ℚ) (hd : 0 < d) :
    (CameraState.new 100 100 4 (Complex.new 0 0)).min = Complex.new (-2) (-2) ∧
    (CameraState.new 100 100 4 (Complex.new 0 0)).max = Complex.new 2 2 ∧
    ((CameraState.new 100 100 4 (Complex.new 0 0)).zoom_at_point x y d).zoom = 2 ∧
    ((CameraState.new 100 100 4 (Complex.new 0 0)).zoom_at_point x y d).min =
      Complex.new (-1) (-1) ∧
    ((CameraState.new 100 100 4 (Complex.new 0 0)).zoom_at_point x y d).max =
      Complex.new 1 1 ∧
    (((CameraState.new 100 100 4 (Complex.new 0 0)).zoom_at_point x y d).move_origin
        50 0).origin = Complex.new (-1) 0 ∧
    (∀ (s : CameraState) (dx dy : ℚ), (s.move_origin dx dy).origin =
      Complex.new (s.origin.re + (s.min.re - s.max.re) / s.width * dx)
                  (s.origin.im + (s.min.im - s.max.im) / s.height * dy)) := by
  have hzz : (CameraState.new 100 100 4 (Complex.new 0 0)).zoom_at_point x y d =
      ((({ CameraState.new 100 100 4 (Complex.new 0 0) with
          zoom := (CameraState.new 100 100 4 (Complex.new 0 0)).zoom * 2
        } : CameraState).update_limits).redraw) := by
    unfold CameraState.zoom_at_point
    rw [if_pos hd]
  rw [hzz]
  refine ⟨?_, ?_, ?_, ?_, ?_, ?_, fun s dx dy => rfl⟩ <;>
    norm_num [CameraState.new, CameraState.update_limits, CameraState.redraw,
      CameraState.calculate_limits, CameraState.move_origin, CameraState.set_origin,
      Complex.new, Complex.mk.injEq]

/-- Witness for C3 with direction 1 at pixel (0, 0). -/
theorem C3_concrete_scenario_witness :
    (0:ℚ) < 1 ∧
    ((CameraState.new 100 100 4 (Complex.new 0 0)).zoom_at_point 0 0 1).zoom = 2 :=
  ⟨by decide, (C3_concrete_scenario 0 0 1 (by decide)).2.2.1⟩

/-- C4 counterexample: at the freshly constructed 100×100 camera (a state
reachable through the public operations), `pixel_to_point 0 0` matches
the code's formula `min.im - y*(min.im - max.im)/height` (giving min.im),
but differs from the spec's claimed-equivalent formula
`max.im - y*(max.im - min.im)/height` (which gives max.im). -/
theorem C4_counterexample :
    ((Camera.new 100 100 4 (Complex.new 0 0)).pixel_to_point 0 0).im =
      (Camera.new 100 100 4 (Complex.new 0 0)).state.min.im -
        0 * ((Camera.new 100 100 4 (Complex.new 0 0)).state.min.im -
             (Camera.new 100 100 4 (Complex.new 0 0)).state.max.im) / 100 ∧
    ((Camera.new 100 100 4 (Complex.new 0 0)).pixel_to_point 0 0).im ≠
      (Camera.new 100 100 4 (Complex.new 0 0)).state.max.im -
        0 * ((Camera.new 100 100 4 (Complex.new 0 0)).state.max.im -
             (Camera.new 100 100 4 (Complex.new 0 0)).state.min.im) / 100 := by
  norm_num [Camera.new, Camera.pixel_to_point, CameraState.new,
    CameraState.calculate_limits, Complex.new]

/-- C4 amended: for every camera state and pixel, `pixel_to_point`
returns `re = min.re + x*(max.re - min.re)/width` and
`im = min.im - y*(min.im - max.im)/height`, which equals
`min.im + y*(max.im - min.im)/height` — so pixel y = 0 maps to `min.im`
and the screen y-axis is NOT inverted relative to the imaginary axis;
the spec's alternative `max.im - y*(max.im - min.im)/height` is not
equivalent. -/
theorem C4_pixel_to_point_formula (c : Camera) (x y : ℚ) :
    (c.pixel_to_point x y).re =
      c.state.min.re + x * (c.state.max.re - c.state.min.re) / c.state.width ∧
    (c.pixel_to_point x y).im =
      c.state.min.im - y * (c.state.min.im - c.state.max.im) / c.state.height ∧
    (c.pixel_to_point x y).im =
      c.state.min.im + y * (c.state.max.im - c.state.min.im) / c.state.height := by
  refine ⟨rfl, rfl, ?_⟩
  simp only [Camera.pixel_to_point]
  ring

/-- C8: every resize request that reaches the viewport state through
`Renderer::resize` is clamped to at least 1 pixel in each dimension, so
the stored width and height are ≥ 1 and in particular nonzero (the
divisors of the limit and pixel-to-point calculations). -/
theorem C8_resize_clamped (c : Camera) (w h : ℕ) :
    1 ≤ (Renderer.resize c w h).state.width ∧
    1 ≤ (Renderer.resize c w h).state.height ∧
    (Renderer.resize c w h).state.width ≠ 0 ∧
    (Renderer.resize c w h).state.height ≠ 0 := by
  have hw : 1 ≤ (if w ≤ 0 then 1 else w) := by split <;> omega
  have hh : 1 ≤ (if h ≤ 0 then 1 else h) := by split <;> omega
  refine ⟨?_, ?_, ?_, ?_⟩
  · show (1:ℚ) ≤ ((if w ≤ 0 then 1 else w : ℕ) : ℚ)
    exact_mod_cast hw
  · show (1:ℚ) ≤ ((if h ≤ 0 then 1 else h : ℕ) : ℚ)
    exact_mod_cast hh
  · show ((if w ≤ 0 then 1 else w : ℕ) : ℚ) ≠ 0
    have : (if w ≤ 0 then 1 else w) ≠ 0 := by omega
    exact_mod_cast this
  · show ((if h ≤ 0 then 1 else h : ℕ) : ℚ) ≠ 0
    have : (if h ≤ 0 then 1 else h) ≠ 0 := by omega
    exact_mod_cast this

/-- With the mouse button up, `Camera::update` is exactly the GPU sync
step: upload-and-clear when the flag is set, no-op otherwise. -/
theorem update_no_drag (cam : Camera) (hm : cam.mouse_left_down = false) :
    cam.update = if cam.state.needs_redraw ≠ 0
      then ({ cam with state := { cam.state with needs_redraw := 0 } }, true)
      else (cam, false) := by
  unfold Camera.update
  simp [hm]

/-- C7: dirty-flag discipline — every mutating operation leaves
`needs_redraw = 1`; the sync step uploads and clears exactly when the
flag is set, does nothing otherwise, and a second consecutive sync step
with no intervening mutation performs no upload. -/
theorem C7_dirty_flag (s : CameraState) (a b z x y d dx dy : ℚ) (o : Complex)
    (cam : Camera) (hm : cam.mouse_left_down = false) :
    (s.resize a b).needs_redraw = 1 ∧
    (s.set_origin o).needs_redraw = 1 ∧
    (s.move_origin dx dy).needs_redraw = 1 ∧
    (s.set_zoom z).needs_redraw = 1 ∧
    (s.zoom_at_point x y d).needs_redraw = 1 ∧
    (s.zoom_rect x y a b).needs_redraw = 1 ∧
    (cam.update.2 = true ↔ cam.state.needs_redraw ≠ 0) ∧
    cam.update.1.state.needs_redraw = 0 ∧
    (cam.update.2 = false → cam.update.1 = cam) ∧
    cam.update.1.update.2 = false := by
  refine ⟨rfl, rfl, rfl, rfl, rfl, rfl, ?_, ?_, ?_, ?_⟩ <;>
    rw [update_no_drag cam hm]
  · by_cases hn : cam.state.needs_redraw = 0
    · rw [if_neg (not_not_intro hn)]
      simp [hn]
    · rw [if_pos hn]
      simp [hn]
  · by_cases hn : cam.state.needs_redraw = 0
    · rw [if_neg (not_not_intro hn)]
      exact hn
    · rw [if_pos hn]
  · by_cases hn : cam.state.needs_redraw = 0
    · rw [if_neg (not_not_intro hn)]
      intro _
      rfl
    · rw [if_pos hn]
      simp
  · by_cases hn : cam.state.needs_redraw = 0
    · rw [if_neg (not_not_intro hn)]
      rw [update_no_drag cam hm, if_neg (not_not_intro hn)]
    · rw [if_pos hn]
      rw [update_no_drag { cam with state := { cam.state with needs_redraw := 0 } } hm]
      simp

/-- Witness for C7 on a freshly constructed camera. -/
theorem C7_dirty_flag_witness :
    (Camera.new 100 100 4 (Complex.new 0 0)).mouse_left_down = false ∧
    (Camera.new 100 100 4 (Complex.new 0 0)).update.1.update.2 = false :=
  ⟨rfl,
    (C7_dirty_flag (CameraState.new 100 100 4 (Complex.new 0 0)) 1 1 1 1 1 1 1 1
      (Complex.new 0 0) (Camera.new 100 100 4 (Complex.new 0 0))
      rfl).2.2.2.2.2.2.2.2.2⟩

/-- `set_origin` re-establishes the derived-limits invariant. -/
theorem set_origin_wf (s : CameraState) (o : Complex) : (s.set_origin o).Wf := rfl

/-- During a drag, one tick (cursor move then update) stores the new
cursor, re-anchors the origin, and clears the flag after the upload. -/
theorem moveTick_eq (c : Camera) (p : ℚ × ℚ) (hdown : c.mouse_left_down = true) :
    moveTick c p = { c with
      cursor_pos := (p.1, p.2),
      state := { (c.state.set_origin
          (c.grab_point + c.state.origin - c.pixel_to_point p.1 p.2))
        with needs_redraw := 0 } } := by
  have h1 : (c.input (WinEvent.cursorMoved p.1 p.2)).1 =
      { c with cursor_pos := (p.1, p.2) } := rfl
  unfold moveTick
  rw [h1]
  simp [Camera.update, hdown, Camera.pixel_to_point,
    CameraState.set_origin, CameraState.update_limits, CameraState.redraw]

/-- A drag tick leaves the button down. -/
theorem moveTick_down (c : Camera) (p : ℚ × ℚ) (hdown : c.mouse_left_down = true) :
    (moveTick c p).mouse_left_down = true := by
  rw [moveTick_eq c p hdown]
  exact hdown

/-- A drag tick does not change the stored grab point. -/
theorem moveTick_grab (c : Camera) (p : ℚ × ℚ) (hdown : c.mouse_left_down = true) :
    (moveTick c p).grab_point = c.grab_point := by
  rw [moveTick_eq c p hdown]

/-- A drag tick stores the moved-to cursor position. -/
theorem moveTick_cursor (c : Camera) (p : ℚ × ℚ) (hdown : c.mouse_left_down = true) :
    (moveTick c p).cursor_pos = p := by
  rw [moveTick_eq c p hdown]

/-- A drag tick re-establishes the derived-limits invariant. -/
theorem moveTick_wf (c : Camera) (p : ℚ × ℚ) (hdown : c.mouse_left_down = true) :
    (moveTick c p).state.Wf := by
  rw [moveTick_eq c p hdown]
  exact rfl

/-- The single-tick anchor property: on a well-formed state, the origin
adjustment `grab_point + origin - pixel_to_point(cursor)` puts
`grab_point` exactly under the cursor. -/
theorem moveTick_anchor (c : Camera) (p : ℚ × ℚ)
    (hwf : c.state.Wf) (hdown : c.mouse_left_down = true) :
    (moveTick c p).pixel_to_point p.1 p.2 = c.grab_point := by
  have hmin : c.state.min = (CameraState.calculate_limits c.state.width
      c.state.height c.state.scale c.state.origin c.state.zoom).1 :=
    congrArg Prod.fst hwf
  have hmax : c.state.max = (CameraState.calculate_limits c.state.width
      c.state.height c.state.scale c.state.origin c.state.zoom).2 :=
    congrArg Prod.snd hwf
  rw [moveTick_eq c p hdown]
  simp only [Camera.pixel_to_point, CameraState.set_origin,
    CameraState.update_limits, CameraState.redraw, Complex.add_def,
    Complex.sub_def]
  rw [hmin, hmax]
  simp only [CameraState.calculate_limits, Complex.new]
  apply Complex.ext
  · show _ = c.grab_point.re
    ring
  · show _ = c.grab_point.im
    ring

/-- C2: pan-anchor invariant — starting from any well-formed camera state
with an active drag, after any nonempty sequence of cursor-move-then-update
ticks, `pixel_to_point` at the current cursor position equals the grab
point captured at press time, exactly. -/
theorem C2_pan_anchor (c : Camera) (l : List (ℚ × ℚ)) (p : ℚ × ℚ)
    (hwf : c.state.Wf) (hdown : c.mouse_left_down = true) :
    ((l ++ [p]).foldl moveTick c).pixel_to_point
        ((l ++ [p]).foldl moveTick c).cursor_pos.1
        ((l ++ [p]).foldl moveTick c).cursor_pos.2
      = c.grab_point := by
  induction l generalizing c with
  | nil =>
      simp only [List.nil_append, List.foldl_cons, List.foldl_nil]
      rw [moveTick_cursor c p hdown]
      exact moveTick_anchor c p hwf hdown
  | cons q t ih =>
      simp only [List.cons_append, List.foldl_cons]
      have h1 := ih (moveTick c q) (moveTick_wf c q hdown) (moveTick_down c q hdown)
      rw [moveTick_grab c q hdown] at h1
      exact h1

/-- Witness for C2: one tick of a drag on a freshly grabbed camera. -/
theorem C2_pan_anchor_witness :
    ({ Camera.new 100 100 4 (Complex.new 0 0) with
        mouse_left_down := true } : Camera).state.Wf ∧
    ((([] : List (ℚ × ℚ)) ++ [((3:ℚ), (4:ℚ))]).foldl moveTick
        { Camera.new 100 100 4 (Complex.new 0 0) with
          mouse_left_down := true }).pixel_to_point
        ((([] : List (ℚ × ℚ)) ++ [((3:ℚ), (4:ℚ))]).foldl moveTick
          { Camera.new 100 100 4 (Complex.new 0 0) with
            mouse_left_down := true }).cursor_pos.1
        ((([] : List (ℚ × ℚ)) ++ [((3:ℚ), (4:ℚ))]).foldl moveTick
          { Camera.new 100 100 4 (Complex.new 0 0) with
            mouse_left_down := true }).cursor_pos.2
      = ({ Camera.new 100 100 4 (Complex.new 0 0) with
          mouse_left_down := true } : Camera).grab_point :=
  ⟨rfl,
    C2_pan_anchor
      { Camera.new 100 100 4 (Complex.new 0 0) with mouse_left_down := true }
      [] ((3:ℚ), (4:ℚ)) rfl rfl⟩

end FractalViewer
